import Mathlib

/-!
Verification of the routing and dependency-injection core of the `bard`
framework against its specification.

The definitions below are a shallow embedding of the corresponding Python
source (`src/bard/router.py`, `src/bard/handler.py`, `src/bard/utils.py`,
`src/bard/di.py`, `src/bard/app.py`).  Handlers and resource values are
identified by natural numbers; Python dictionaries become insertion-ordered
association lists; exceptions become `Option`/`Except` results.
-/

namespace Bard

/-- Association-list lookup, mirroring Python `dict.get`: the first binding
for the key wins (bindings are kept unique by `setAssoc`, matching dict
semantics). -/
def lookupAssoc {κ α : Type} [DecidableEq κ] : List (κ × α) → κ → Option α
  | [], _ => none
  | (k', v) :: rest, k => if k' = k then some v else lookupAssoc rest k

/-- Association-list update, mirroring Python `dict.__setitem__`: replaces an
existing binding in place (preserving insertion order) or appends a new one. -/
def setAssoc {κ α : Type} [DecidableEq κ] : List (κ × α) → κ → α → List (κ × α)
  | [], k, v => [(k, v)]
  | (k', v') :: rest, k, v =>
    if k' = k then (k, v) :: rest else (k', v') :: setAssoc rest k v

/-- Python `path.strip("/")`: remove every leading and trailing slash. -/
def stripSlashes (s : String) : String :=
  String.mk (((s.data.dropWhile (fun c => c == '/')).reverse.dropWhile
    (fun c => c == '/')).reverse)

/-- Python `str.split("/")` on a character list: cut at every slash, keeping
empty pieces (so `"a//b"` yields `["a", "", "b"]` and `""` yields `[""]`). -/
def splitSlashAux (cur : List Char) : List Char → List (List Char)
  | [] => [cur.reverse]
  | c :: cs =>
    if c == '/' then cur.reverse :: splitSlashAux [] cs
    else splitSlashAux (c :: cur) cs

/-- Python `s.split("/")`. -/
def splitSlash (s : String) : List String :=
  (splitSlashAux [] s.data).map String.mk

/-- Embeds `_split_path` (router.py lines 218-222): strip the path of leading
and trailing slashes, split on a slash, and drop empty segments. -/
def splitPath (path : String) : List String :=
  let trimmed := stripSlashes path
  if trimmed = "" then []
  else (splitSlash trimmed).filter (fun seg => seg != "")

/-- Python `s.startswith(t)`. -/
def pyStartsWith (s t : String) : Bool :=
  t.data.isPrefixOf s.data

/-- Python `s.endswith(t)`. -/
def pyEndsWith (s t : String) : Bool :=
  t.data.isSuffixOf s.data

/-- Python `s.upper()` for the ASCII method names the router upper-cases. -/
def pyUpper (s : String) : String :=
  String.mk (s.data.map Char.toUpper)

/-- Embeds `_is_param` (router.py lines 225-226). -/
def isParam (segment : String) : Bool :=
  pyStartsWith segment "\x7b" && pyEndsWith segment "\x7d" &&
    decide (segment.data.length > 2)

/-- Python `segment[1:-1]`: the parameter name inside the braces. -/
def paramName (segment : String) : String :=
  String.mk ((segment.data.drop 1).dropLast)

/-- Embeds `_Node` (router.py lines 13-30), keeping the fields route matching
reads: the literal-segment children, the at-most-one parameter child, the
per-method dispatchable handler (`routed`, handlers identified by `Nat`), and
the per-method ordered path-parameter names.  The bookkeeping fields
`handlers`, `compiled` and `middlewares` duplicate `routed` for the purposes
of `match` (after `compile()` every registered method has a `routed` entry) and
are not modelled; no claim reads them. -/
inductive Node where
  | mk (staticChildren : List (String × Node))
       (paramChild : Option Node)
       (routed : List (String × Nat))
       (paramNames : List (String × List String))

/-- The literal-segment children of a node. -/
def Node.staticChildren : Node → List (String × Node)
  | .mk s _ _ _ => s

/-- The single optional parameter child of a node. -/
def Node.paramChild : Node → Option Node
  | .mk _ p _ _ => p

/-- The per-method handler table of a node. -/
def Node.routed : Node → List (String × Nat)
  | .mk _ _ r _ => r

/-- The per-method ordered parameter-name table of a node. -/
def Node.paramNames : Node → List (String × List String)
  | .mk _ _ _ n => n

/-- A freshly constructed `_Node()`. -/
def Node.empty : Node := .mk [] none [] []

/-- The trie-descent and registration loop of `Router.add_route` (router.py
lines 105-146): walk the split path creating nodes on demand (`setdefault` for
a literal segment, the shared parameter child for a `{name}` placeholder),
collecting parameter names in order, and record handler and parameter names
for every method (upper-cased) at the final node. -/
def insertRoute (methods : List String) (handler : Nat) :
    List String → List String → Node → Node
  | [], acc, node =>
    Node.mk node.staticChildren node.paramChild
      (methods.foldl (fun r m => setAssoc r (pyUpper m) handler) node.routed)
      (methods.foldl (fun r m => setAssoc r (pyUpper m) acc) node.paramNames)
  | seg :: rest, acc, node =>
    if isParam seg then
      let child := node.paramChild.getD Node.empty
      Node.mk node.staticChildren
        (some (insertRoute methods handler rest (acc ++ [paramName seg]) child))
        node.routed node.paramNames
    else
      let child := (lookupAssoc node.staticChildren seg).getD Node.empty
      Node.mk (setAssoc node.staticChildren seg
          (insertRoute methods handler rest acc child))
        node.paramChild node.routed node.paramNames

/-- Embeds `Router.add_route` (router.py lines 95-146) in its compiled regime:
a path not starting with a slash is a fatal error (`none`); otherwise the
route is inserted for every method.  The duplicate-(method, path) check and
the deferred-compilation bookkeeping are modelled separately with the
dependency-compilation pipeline. -/
def addRoute (root : Node) (path : String) (methods : List String)
    (handler : Nat) : Option Node :=
  if pyStartsWith path "/" then
    some (insertRoute methods handler (splitPath path) [] root)
  else none

/-- The descent loop of `Router.match` (router.py lines 177-186): at each
segment try the literal children first and fall back to the parameter child,
collecting captured segments; fail when neither exists. -/
def matchLoop : List String → Node → List String → Option (Node × List String)
  | [], node, paramValues => some (node, paramValues)
  | seg :: rest, node, paramValues =>
    match lookupAssoc node.staticChildren seg with
    | some child => matchLoop rest child paramValues
    | none =>
      match node.paramChild with
      | none => none
      | some child => matchLoop rest child (paramValues ++ [seg])

/-- The method-selection tail of `Router.match` (router.py lines 187-192):
look up the routed handler and parameter names for the (already upper-cased)
method, falling back to `GET` for a `HEAD` request with no routed `HEAD`
entry. -/
def routeAt (node : Node) (methodKey : String) : Option Nat × List String :=
  let routed := lookupAssoc node.routed methodKey
  let names := (lookupAssoc node.paramNames methodKey).getD []
  if routed.isNone && methodKey == "HEAD" then
    (lookupAssoc node.routed "GET", (lookupAssoc node.paramNames "GET").getD [])
  else (routed, names)

/-- Embeds `Router.match` (router.py lines 176-194): split the request path,
descend the trie, select the handler for the upper-cased method, and zip the
recorded parameter names with the captured values (Python builds a dict from
`zip(param_names, param_values)`, which truncates to the shorter list). -/
def matchRoute (root : Node) (method path : String) :
    Option Nat × List (String × String) :=
  match matchLoop (splitPath path) root [] with
  | none => (none, [])
  | some (node, paramValues) =>
    let res := routeAt node (pyUpper method)
    (res.1, res.2.zip paramValues)

/-- A router in which the parameter route `/a/{x}` (handler 1) and the
sibling literal route `/a/static` (handler 2) are both registered for GET. -/
def staticParamRouter : Node :=
  ((addRoute Node.empty "/a/{x}" ["GET"] 1).bind
    (fun r => addRoute r "/a/static" ["GET"] 2)).getD Node.empty

/-- A router with the literal route `/items` registered (handler 7) for GET. -/
def itemsRouter : Node :=
  (addRoute Node.empty "/items" ["GET"] 7).getD Node.empty

/-- A router registering `/a/static` (handler 1) and `/a/{x}/c` (handler 2),
both for GET: the committed (non-backtracking) matcher cannot reach handler 2
through the segment `static`. -/
def commitRouter : Node :=
  ((addRoute Node.empty "/a/static" ["GET"] 1).bind
    (fun r => addRoute r "/a/{x}/c" ["GET"] 2)).getD Node.empty

/-- C3: at every depth of a lookup, a segment is first looked up among the
literal children of the reached node — on a literal hit the matcher descends
into that literal child, and the parameter child is consulted (capturing the
segment, or failing when absent) only when no literal child matches;
consequently, with `/a/{x}` and `/a/static` both registered, matching
`/a/static` returns the handler of the literal route (handler 2), not the
parameter route's handler. -/
theorem C3_static_precedence :
    (∀ (node child : Node) (seg : String) (rest acc : List String),
      lookupAssoc node.staticChildren seg = some child →
      matchLoop (seg :: rest) node acc = matchLoop rest child acc) ∧
    (∀ (node child : Node) (seg : String) (rest acc : List String),
      lookupAssoc node.staticChildren seg = Option.none →
      node.paramChild = some child →
      matchLoop (seg :: rest) node acc = matchLoop rest child (acc ++ [seg])) ∧
    (∀ (node : Node) (seg : String) (rest acc : List String),
      lookupAssoc node.staticChildren seg = Option.none →
      node.paramChild = Option.none →
      matchLoop (seg :: rest) node acc = Option.none) ∧
    matchRoute staticParamRouter "GET" "/a/static" = (some 2, []) ∧
    matchRoute staticParamRouter "GET" "/a/other" = (some 1, [("x", "other")]) := by
  refine ⟨?_, ?_, ?_, by decide, by decide⟩
  · intro node child seg rest acc h
    simp [matchLoop, h]
  · intro node child seg rest acc h hp
    simp [matchLoop, h, hp]
  · intro node seg rest acc h hp
    simp [matchLoop, h, hp]

/-- C4: route matching is a function of the split path only, and splitting
ignores empty segments, so lookup paths differing only in leading, trailing or
repeated slashes give equal match results; in particular, for the registered
route `/items`, the lookups `/items/`, `items` and `/items//` are all
equivalent to `/items`. -/
theorem C4_slash_normalization :
    (∀ (r : Node) (M p1 p2 : String), splitPath p1 = splitPath p2 →
      matchRoute r M p1 = matchRoute r M p2) ∧
    splitPath "/items/" = splitPath "/items" ∧
    splitPath "items" = splitPath "/items" ∧
    splitPath "/items//" = splitPath "/items" ∧
    matchRoute itemsRouter "GET" "/items/" = matchRoute itemsRouter "GET" "/items" ∧
    matchRoute itemsRouter "GET" "items" = matchRoute itemsRouter "GET" "/items" ∧
    matchRoute itemsRouter "GET" "/items//" = matchRoute itemsRouter "GET" "/items" ∧
    matchRoute itemsRouter "GET" "/items" = (some 7, []) := by
  refine ⟨?_, by decide, by decide, by decide, by decide, by decide, by decide, by decide⟩
  intro r M p1 p2 h
  simp only [matchRoute, h]

/-- C5: at the node a lookup reaches, a `HEAD` request with no routed `HEAD`
entry is answered with the node's `GET` handler and `GET` parameter names; for
any method whose upper-casing is not `HEAD` the selection reads exactly that
method's entries with no fallback; and the match result is empty — no handler
and an empty parameter map — both when no node matches the path and when the
reached node has no entry for the requested method (and the `HEAD` to `GET`
fallback does not apply). -/
theorem C5_method_selection (root node : Node) (M p : String)
    (vals : List String) :
    (lookupAssoc node.routed "HEAD" = none →
      routeAt node "HEAD" =
        (lookupAssoc node.routed "GET",
         (lookupAssoc node.paramNames "GET").getD [])) ∧
    (pyUpper M ≠ "HEAD" →
      routeAt node (pyUpper M) =
        (lookupAssoc node.routed (pyUpper M),
         (lookupAssoc node.paramNames (pyUpper M)).getD [])) ∧
    (matchLoop (splitPath p) root [] = none → matchRoute root M p = (none, [])) ∧
    (matchLoop (splitPath p) root [] = some (node, vals) →
      lookupAssoc node.routed (pyUpper M) = none →
      lookupAssoc node.paramNames (pyUpper M) = none →
      pyUpper M ≠ "HEAD" →
      matchRoute root M p = (none, [])) ∧
    (matchLoop (splitPath p) root [] = some (node, vals) →
      lookupAssoc node.routed "HEAD" = none →
      lookupAssoc node.routed "GET" = none →
      lookupAssoc node.paramNames "GET" = none →
      pyUpper M = "HEAD" →
      matchRoute root M p = (none, [])) := by
  refine ⟨?_, ?_, ?_, ?_, ?_⟩
  · intro h
    simp [routeAt, h]
  · intro h
    have hb : (pyUpper M == "HEAD") = false := by
      simpa using h
    simp [routeAt, hb]
  · intro h
    simp [matchRoute, h]
  · intro hm h1 h2 h3
    have hb : (pyUpper M == "HEAD") = false := by
      simpa using h3
    simp [matchRoute, hm, routeAt, h1, h2, hb]
  · intro hm h1 h2 h3 h4
    simp [matchRoute, hm, routeAt, h1, h2, h3, h4]

/-- C10: the matcher never backtracks — a segment equal to a literal child key
commits the lookup to that literal child — so with `/a/static` and `/a/{x}/c`
registered, the request `/a/static/c` matches no handler even though binding
`static` to `{x}` would have reached the `/a/{x}/c` handler (which the request
`/a/b/c` does reach). -/
theorem C10_commitment :
    (∀ (node child : Node) (seg : String) (rest acc : List String),
      lookupAssoc node.staticChildren seg = some child →
      matchLoop (seg :: rest) node acc = matchLoop rest child acc) ∧
    matchRoute commitRouter "GET" "/a/static/c" = (none, []) ∧
    matchRoute commitRouter "GET" "/a/b/c" = (some 2, [("x", "b")]) := by
  refine ⟨?_, by decide, by decide⟩
  intro node child seg rest acc h
  simp [matchLoop, h]

/-- A middleware in the shallow embedding: it receives the continuation and
returns the observable event trace of its execution (the request object,
passed unchanged to every interceptor, is elided). -/
def Middleware : Type := (Unit → List String) → List String

/-- The chain construction of `BardApp._dispatch_http` (app.py lines 185-195):
starting from the endpoint as `call_next`, wrap with each middleware of the
combined list in reversed order, so the first middleware of the list ends up
outermost. -/
def composeChain (ms : List Middleware) (endpoint : Unit → List String) :
    Unit → List String :=
  ms.reverse.foldl (fun callNext m => fun _ => m callNext) endpoint

/-- The combined interceptor list of `_dispatch_http` (app.py line 183): the
globally registered middlewares followed by the route middlewares. -/
def dispatchChain (globals routeMs : List Middleware)
    (endpoint : Unit → List String) : Unit → List String :=
  composeChain (globals ++ routeMs) endpoint

/-- An interceptor that records an entry event, awaits the continuation, and
records an exit event. -/
def traced (name : String) : Middleware :=
  fun callNext => (name ++ "-before") :: callNext () ++ [name ++ "-after"]

/-- C6: the first-registered global interceptor is outermost in the composed
call (the chain for a first global `m` runs `m` around the chain of the
remaining interceptors), and for two tracing globals A then B around a handler
H the observable trace is exactly A-before, B-before, H, B-after, A-after. -/
theorem C6_interceptor_order (m : Middleware) (ms routeMs : List Middleware)
    (endpoint : Unit → List String) :
    dispatchChain (m :: ms) routeMs endpoint () =
      m (dispatchChain ms routeMs endpoint) ∧
    dispatchChain [traced "A", traced "B"] [] (fun _ => ["H"]) () =
      ["A-before", "B-before", "H", "B-after", "A-after"] := by
  constructor
  · simp [dispatchChain, composeChain, List.foldl_append]
  · rfl

/-- The cleanup capability a dependency value offers, in the priority order
`enter_resource` (di.py lines 53-75) probes for one: an asynchronous context
manager, a synchronous context manager, an asynchronous `aclose`, a
synchronous `close`, or nothing. -/
inductive Cleanup where
  | asyncContext
  | syncContext
  | asyncClose
  | syncClose
  | nothing
deriving DecidableEq

/-- Whether `enter_resource` registers a cleanup for a value with the given
capability: every branch except the final fall-through registers one. -/
def registersCleanup : Cleanup → Bool
  | .nothing => false
  | _ => true

/-- Embeds `enter_resource` (di.py lines 53-75) acting on the exit stack of
the request: the value (identified by a `Nat`) is returned and, when it offers
a cleanup capability, an entry for it is appended to the stack's callback
register in acquisition order. -/
def enterResource (stack : List Nat) (value : Nat) (c : Cleanup) :
    Nat × List Nat :=
  if registersCleanup c then (value, stack ++ [value]) else (value, stack)

/-- One step of a request's execution inside the `async with AsyncExitStack`
block of `BardApp._handle_http` (app.py lines 62-88): a resolver enters a
dependency value into the request scope, or the handler or an
extractor/resolver raises. -/
inductive Step where
  | acquire (value : Nat) (c : Cleanup)
  | raiseErr (message : String)

/-- Runs the request body: every acquisition passes through `enterResource`;
a raise abandons the remaining steps (the exception propagates out to the
`async with` block), leaving the stack as accumulated so far. -/
def runSteps : List Step → List Nat → Option String × List Nat
  | [], stack => (none, stack)
  | .acquire v c :: rest, stack => runSteps rest (enterResource stack v c).2
  | .raiseErr msg :: _, stack => (some msg, stack)

/-- The LIFO unwinding of `contextlib.AsyncExitStack.__aexit__` (the Python
standard library contract the `async with` block of `_handle_http` relies
on): everything registered after an entry is released before it. -/
def releaseOrder : List Nat → List Nat
  | [] => []
  | r :: rest => releaseOrder rest ++ [r]

/-- Embeds the resource lifecycle of `_handle_http`: run the request steps
from a fresh, empty exit stack and, whatever the outcome, release the
accumulated register. -/
def handleHttp (steps : List Step) : Option String × List Nat :=
  let res := runSteps steps []
  (res.1, releaseOrder res.2)

/-- The values entered into the request scope with a registered cleanup, in
acquisition order, up to the first raised error. -/
def enteredResources : List Step → List Nat
  | [] => []
  | .acquire v c :: rest =>
    if registersCleanup c then v :: enteredResources rest
    else enteredResources rest
  | .raiseErr _ :: _ => []

theorem runSteps_stack (steps : List Step) (stack : List Nat) :
    (runSteps steps stack).2 = stack ++ enteredResources steps := by
  induction steps generalizing stack with
  | nil => simp [runSteps, enteredResources]
  | cons s rest ih =>
    cases s with
    | acquire v c =>
      cases hc : registersCleanup c with
      | true => simp [runSteps, enterResource, hc, ih, enteredResources]
      | false => simp [runSteps, enterResource, hc, ih, enteredResources]
    | raiseErr m => simp [runSteps, enteredResources]

theorem releaseOrder_eq_reverse (l : List Nat) : releaseOrder l = l.reverse := by
  induction l with
  | nil => rfl
  | cons r rest ih => simp [releaseOrder, ih]

/-- C2: for every request execution — ending in success or in a raise from
the handler or from an extractor — the released resources are exactly the
entered ones in strict reverse acquisition order, and in particular every
resource entered into the request scope is released. -/
theorem C2_reverse_release (steps : List Step) :
    (handleHttp steps).2 = (enteredResources steps).reverse ∧
    (∀ v, v ∈ enteredResources steps → v ∈ (handleHttp steps).2) := by
  have h : (handleHttp steps).2 = (enteredResources steps).reverse := by
    simp [handleHttp, releaseOrder_eq_reverse, runSteps_stack]
  exact ⟨h, fun v hv => by simp [h, hv]⟩

/-- The per-request dependency state read and written by the resolver closure
of `_compile_dependency` (handler.py lines 330-339): `request.di_cache`
mapping a cache key to its resolved value, the exit-stack register in
acquisition order, and the number of provider invocations made so far. -/
structure ReqState where
  diCache : List (Nat × Nat)
  stack : List Nat
  providerCalls : Nat
deriving DecidableEq

/-- One invocation of the compiled provider: the abstract `provider` function
maps the invocation index to the produced value object (distinct invocations
may produce distinct objects), and the invocation count grows by one. -/
def invokeProvider (provider : Nat → Nat) (st : ReqState) : Nat × ReqState :=
  (provider st.providerCalls,
   { st with providerCalls := st.providerCalls + 1 })

/-- Entering a produced value into the request scope (`enter_resource` with the
request's exit stack): the value is returned and appended to the register. -/
def enterScopedValue (st : ReqState) (value : Nat) : Nat × ReqState :=
  (value, { st with stack := st.stack ++ [value] })

/-- Embeds the `resolve` closure of `_compile_dependency` (handler.py lines
330-339): with caching disabled, invoke the provider and enter the result into
the scope; with caching enabled, serve a cache hit without touching the
provider, and on a miss invoke the provider, enter the result, store it in the
cache under the cache key, and return it. -/
def resolveDependency (provider : Nat → Nat) (useCache : Bool) (cacheKey : Nat)
    (st : ReqState) : Nat × ReqState :=
  if !useCache then
    let inv := invokeProvider provider st
    enterScopedValue inv.2 inv.1
  else
    match lookupAssoc st.diCache cacheKey with
    | some v => (v, st)
    | none =>
      let inv := invokeProvider provider st
      let ent := enterScopedValue inv.2 inv.1
      (ent.1, { ent.2 with diCache := setAssoc ent.2.diCache cacheKey ent.1 })

theorem lookupAssoc_setAssoc {κ α : Type} [DecidableEq κ]
    (l : List (κ × α)) (k : κ) (v : α) :
    lookupAssoc (setAssoc l k v) k = some v := by
  induction l with
  | nil => simp [setAssoc, lookupAssoc]
  | cons p rest ih =>
    obtain ⟨k', v'⟩ := p
    by_cases h : k' = k
    · simp [setAssoc, lookupAssoc, h]
    · simp [setAssoc, lookupAssoc, h, ih]

/-- C1: starting from a request whose cache does not yet hold the key, a
cache-enabled dependency resolved twice returns the identical value object
both times with the whole request state unchanged by the second resolution
(it is served from the request-scope cache), and the provider has been
invoked exactly once, its result registered once for cleanup; with caching
disabled, two resolutions invoke the provider twice and register both
produced values independently with the scoped register. -/
theorem C1_request_cache (provider : Nat → Nat) (k : Nat) (st : ReqState)
    (h : lookupAssoc st.diCache k = none) :
    (resolveDependency provider true k
        (resolveDependency provider true k st).2).1 =
      (resolveDependency provider true k st).1 ∧
    (resolveDependency provider true k
        (resolveDependency provider true k st).2).2 =
      (resolveDependency provider true k st).2 ∧
    (resolveDependency provider true k st).2.providerCalls =
      st.providerCalls + 1 ∧
    (resolveDependency provider true k st).2.stack =
      st.stack ++ [(resolveDependency provider true k st).1] ∧
    (resolveDependency provider false k
        (resolveDependency provider false k st).2).2.providerCalls =
      st.providerCalls + 2 ∧
    (resolveDependency provider false k
        (resolveDependency provider false k st).2).2.stack =
      st.stack ++ [provider st.providerCalls, provider (st.providerCalls + 1)] := by
  refine ⟨?_, ?_, ?_, ?_, ?_, ?_⟩ <;>
    simp [resolveDependency, invokeProvider, enterScopedValue, h,
      lookupAssoc_setAssoc]

/-- Witness for C1 on an empty request state with the identity provider. -/
theorem C1_request_cache_witness :
    (resolveDependency id true 0
        (resolveDependency id true 0 ⟨[], [], 0⟩).2).1 =
      (resolveDependency id true 0 ⟨[], [], 0⟩).1 ∧
    (resolveDependency id true 0
        (resolveDependency id true 0 ⟨[], [], 0⟩).2).2 =
      (resolveDependency id true 0 ⟨[], [], 0⟩).2 ∧
    (resolveDependency id true 0 ⟨[], [], 0⟩).2.providerCalls =
      (⟨[], [], 0⟩ : ReqState).providerCalls + 1 ∧
    (resolveDependency id true 0 ⟨[], [], 0⟩).2.stack =
      (⟨[], [], 0⟩ : ReqState).stack ++
        [(resolveDependency id true 0 ⟨[], [], 0⟩).1] ∧
    (resolveDependency id false 0
        (resolveDependency id false 0 ⟨[], [], 0⟩).2).2.providerCalls =
      (⟨[], [], 0⟩ : ReqState).providerCalls + 2 ∧
    (resolveDependency id false 0
        (resolveDependency id false 0 ⟨[], [], 0⟩).2).2.stack =
      (⟨[], [], 0⟩ : ReqState).stack ++
        [id ((⟨[], [], 0⟩ : ReqState).providerCalls),
         id ((⟨[], [], 0⟩ : ReqState).providerCalls + 1)] :=
  C1_request_cache id 0 ⟨[], [], 0⟩ (by rfl)

/-- The universe of parameter type annotations the embedding covers: the
primitives and containers `convert_value` (utils.py) dispatches on, `None`
(Python `NoneType`), unions (`Optional` is the two-element union containing
`NoneType`), and opaque application classes (`customTy`), identified by a
number, which stand for provider-supplied dependency types.  `float` and
`Enum` targets are outside the model (floating point is not statable and no
claim touches enums); the bare `list`/`dict` annotations are represented by
their parameterized forms, which convert identically. -/
inductive Ty where
  | anyTy
  | strTy
  | intTy
  | boolTy
  | bytesTy
  | noneTy
  | dictTy
  | listTy (item : Ty)
  | unionTy (args : List Ty)
  | customTy (id : Nat)

/-- The universe of runtime values: `None`, strings (the shape query, path and
header values arrive in), integers, booleans, byte strings, lists,
string-keyed dicts, and opaque application objects tagged with their class. -/
inductive Val where
  | none
  | str (s : String)
  | int (n : Int)
  | bool (b : Bool)
  | bytes (s : String)
  | list (items : List Val)
  | dict (fields : List (String × Val))
  | obj (tyId : Nat)

/-- Embeds `is_optional_type` (utils.py lines 11-20): `NoneType` itself is
optional, and a two-member union containing `NoneType` is optional with the
other member as its inner type (Python reads `args[0] if args[1] is
type(None) else args[1]`). -/
def isOptionalType : Ty → Bool × Ty
  | .noneTy => (true, .noneTy)
  | .unionTy [a, .noneTy] => (true, a)
  | .unionTy [.noneTy, b] => (true, b)
  | t => (false, t)

/-- Whether a value is Python `None`. -/
def isNoneVal : Val → Bool
  | .none => true
  | _ => false

/-- Python `str(value)` for the values of the model (container renderings are
not exercised by any conversion a claim touches). -/
def pyStr : Val → String
  | .none => "None"
  | .str s => s
  | .int n => toString n
  | .bool b => if b then "True" else "False"
  | .bytes s => s
  | .list _ => "[...]"
  | .dict _ => "\x7b...\x7d"
  | .obj n => "object-" ++ toString n

/-- Parses an unsigned decimal literal; any non-digit fails. -/
def parseNatAux : List Char → Nat → Option Nat
  | [], acc => some acc
  | c :: cs, acc =>
    if c.isDigit then parseNatAux cs (acc * 10 + (c.toNat - 48)) else Option.none

/-- Python `int(s)` restricted to optionally signed decimal literals (the
whitespace and underscore tolerance of the Python parser is not exercised by
any claim). -/
def pyParseInt (s : String) : Option Int :=
  match s.data with
  | [] => Option.none
  | '-' :: cs =>
    if cs.isEmpty then Option.none
    else (parseNatAux cs 0).map (fun n => -(n : Int))
  | '+' :: cs =>
    if cs.isEmpty then Option.none
    else (parseNatAux cs 0).map (fun n => (n : Int))
  | cs => (parseNatAux cs 0).map (fun n => (n : Int))

/-- Python `int(value)`: integers pass through, booleans become 0 or 1,
strings are parsed as decimal integers, anything else is a type error. -/
def pyInt : Val → Except String Int
  | .int n => .ok n
  | .bool b => .ok (if b then 1 else 0)
  | .str s =>
    match pyParseInt s with
    | some n => .ok n
    | Option.none => .error ("invalid literal for int: " ++ s)
  | _ => .error "int argument must be a string or a number"

/-- Python `bool(value)` truthiness for the values of the model. -/
def pyTruthy : Val → Bool
  | .none => false
  | .bool b => b
  | .int n => decide (n ≠ 0)
  | .str s => s != ""
  | .bytes s => s != ""
  | .list items => !items.isEmpty
  | .dict fields => !fields.isEmpty
  | .obj _ => true

/-- Python `s.lower()` for ASCII strings. -/
def pyLower (s : String) : String :=
  String.mk (s.data.map Char.toLower)

/-- Embeds `_coerce_bool` (utils.py lines 121-130): booleans pass through; a
string is lower-cased and checked against the recognized true words then the
recognized false words, any other string falling through to Python
truthiness (non-empty is true); every other value is its truthiness. -/
def coerceBool (v : Val) : Bool :=
  match v with
  | .bool b => b
  | .str s =>
    let lowered := pyLower s
    if lowered ∈ (["true", "1", "yes", "on"] : List String) then true
    else if lowered ∈ (["false", "0", "no", "off"] : List String) then false
    else pyTruthy (.str s)
  | _ => pyTruthy v

/-- Embeds `_convert_scalar` (utils.py lines 101-118) without the `float` and
`Enum` branches: conversion to an opaque application class succeeds only for
an instance of that class (constructing one from an arbitrary value is not
modelled; no claim exercises it). -/
def convertScalar (v : Val) (t : Ty) : Except String Val :=
  match t with
  | .strTy =>
    match v with
    | .none => .ok (.str "")
    | _ => .ok (.str (pyStr v))
  | .intTy => (pyInt v).map Val.int
  | .boolTy => .ok (.bool (coerceBool v))
  | .bytesTy =>
    match v with
    | .bytes s => .ok (.bytes s)
    | _ => .ok (.bytes (pyStr v))
  | .noneTy =>
    match v with
    | .none => .ok .none
    | _ => .error "cannot construct instance"
  | .customTy n =>
    match v with
    | .obj m => if m = n then .ok v else .error "cannot construct instance"
    | _ => .error "cannot construct instance"
  | _ => .error "unsupported scalar target"

/-- Embeds `_convert_dict` (utils.py lines 76-81). -/
def convertDict (v : Val) : Except String Val :=
  match v with
  | .none => .ok (.dict [])
  | .dict fields => .ok (.dict fields)
  | _ => .error "Expected dict value"

theorem isOptionalType_sizeOf_le (t : Ty) :
    sizeOf (isOptionalType t).2 ≤ sizeOf t := by
  unfold isOptionalType
  split <;> simp <;> omega

mutual

/-- Embeds `convert_value` (utils.py lines 23-48): `Any` passes the value
through; an optional target with value `None` yields `None`; otherwise the
optional-unwrapped target (the `target_type = inner_type` reassignment)
dispatches through `convertResolved`. -/
def convertValue (v : Val) (t : Ty) : Except String Val :=
  match t with
  | .anyTy => .ok v
  | t' =>
    let opt := isOptionalType t'
    if opt.1 && isNoneVal v then .ok .none
    else convertResolved v opt.2
termination_by (sizeOf t, 1, 0)
decreasing_by
  simp_wf
  have hle := isOptionalType_sizeOf_le t'
  rcases Nat.lt_or_ge (sizeOf (isOptionalType t').2) (sizeOf t') with hlt | hge
  · exact Prod.Lex.left _ _ hlt
  · have heqq : sizeOf (isOptionalType t').2 = sizeOf t' := Nat.le_antisymm hle hge
    rw [heqq]
    exact Prod.Lex.right _ (Prod.Lex.left _ _ Nat.zero_lt_one)

/-- The dispatch of `convert_value` (utils.py lines 31-48) on the
optional-unwrapped target: the parameterized list, dict and union branches,
with every remaining target handled by `_convert_scalar`. -/
def convertResolved (v : Val) (inner : Ty) : Except String Val :=
  match inner with
  | .listTy item => convertList v item
  | .dictTy => convertDict v
  | .unionTy args => convertUnion v args Option.none
  | other => convertScalar v other
termination_by (sizeOf inner, 0, 0)

/-- Embeds `_convert_list` (utils.py lines 67-73): `None` becomes the empty
list, a list converts element-wise, and any other value becomes a one-element
list of its conversion. -/
def convertList (v : Val) (item : Ty) : Except String Val :=
  match v with
  | .none => .ok (.list [])
  | .list items =>
    match convertItems items item with
    | .ok ws => .ok (.list ws)
    | .error e => .error e
  | _ =>
    match convertValue v item with
    | .ok w => .ok (.list [w])
    | .error e => .error e
termination_by (sizeOf item, 3, 0)

/-- Element-wise conversion of a list of values to the item type, failing on
the first failing element (the list comprehension of `_convert_list`). -/
def convertItems : List Val → Ty → Except String (List Val)
  | [], _ => .ok []
  | v :: vs, item =>
    match convertValue v item with
    | .error e => .error e
    | .ok w =>
      match convertItems vs item with
      | .error e => .error e
      | .ok ws => .ok (w :: ws)
termination_by vs item => (sizeOf item, 2, vs.length)

/-- Embeds `_convert_union` (utils.py lines 84-98) with the running
`last_error`: members are tried left to right; a `NoneType` member returns
`None` when the value is `None` and is skipped otherwise; the first successful
conversion is returned; when every tried member failed, the last recorded
error is raised; with no recorded error the value passes through. -/
def convertUnion (v : Val) : List Ty → Option String → Except String Val
  | [], lastError =>
    match lastError with
    | some e => .error e
    | Option.none => .ok v
  | arg :: rest, lastError =>
    match arg with
    | .noneTy =>
      if isNoneVal v then .ok .none
      else convertUnion v rest lastError
    | other =>
      match convertValue v other with
      | .ok w => .ok w
      | .error e => convertUnion v rest (some e)
termination_by args _ => (sizeOf args, 1, 0)

end

/-- Embeds `HTTPError` as the resolver helpers raise it (errors.py): a status
code and a detail message. -/
structure HTTPError where
  status : Nat
  detail : String
deriving DecidableEq

/-- Embeds `_is_list_type` (handler.py lines 362-365): whether the
optional-unwrapped target is a list type. -/
def isListType (t : Ty) : Bool :=
  match (isOptionalType t).2 with
  | .listTy _ => true
  | _ => false

/-- Embeds `_default_or_error` (handler.py lines 344-350): the default wins
when present; otherwise an optional type produces `None`; otherwise a 422
client error naming the parameter. -/
def defaultOrError (name : String) (dflt : Option Val) (targetType : Ty) :
    Except HTTPError Val :=
  let opt := isOptionalType targetType
  match dflt with
  | some d => .ok d
  | Option.none =>
    if opt.1 then .ok .none
    else .error ⟨422, "Missing required value for " ++ name⟩

/-- Embeds `_convert_or_error` (handler.py lines 395-399): any conversion
failure becomes a 422 client error with the caller's message. -/
def convertOrError (v : Val) (targetType : Ty) (message : String) :
    Except HTTPError Val :=
  match convertValue v targetType with
  | .ok w => .ok w
  | .error _ => .error ⟨422, message⟩

/-- Embeds the `resolve_query` closure (handler.py lines 180-190): the query
mapping holds every occurrence of a key in order (`parse_qs` semantics, so a
present key has a non-empty value list); a missing key falls to
`_default_or_error`; a list-typed target receives the whole occurrence list,
any other target the first occurrence; conversion failures name the query
parameter. -/
def resolveQuery (qp : List (String × List String)) (pname key : String)
    (dflt : Option Val) (targetType : Ty) : Except HTTPError Val :=
  match lookupAssoc qp key with
  | Option.none => defaultOrError pname dflt targetType
  | some values =>
    let value :=
      if isListType targetType then Val.list (values.map Val.str)
      else Val.str (values.headD "")
    convertOrError value targetType ("Invalid query parameter " ++ key)

theorem isOptionalType_not_none (args : List Ty) (h : Ty.noneTy ∉ args) :
    isOptionalType (.unionTy args) = (false, .unionTy args) := by
  unfold isOptionalType
  split
  · rename_i heq
    exact absurd heq (by simp)
  · rename_i heq
    rw [show args = _ from (Ty.unionTy.injEq _ _).mp heq] at h
    simp at h
  · rename_i heq
    rw [show args = _ from (Ty.unionTy.injEq _ _).mp heq] at h
    simp at h
  · rfl

theorem convertUnion_cons_not_none (v : Val) (t : Ty) (rest : List Ty)
    (lastError : Option String) (h : t ≠ Ty.noneTy) :
    convertUnion v (t :: rest) lastError =
      match convertValue v t with
      | .ok w => .ok w
      | .error e => convertUnion v rest (some e) := by
  cases t
  case noneTy => exact absurd rfl h
  all_goals rw [convertUnion]
  all_goals intro hh
  all_goals exact Ty.noConfusion hh

theorem convertValue_union_not_none (v : Val) (args : List Ty)
    (h : Ty.noneTy ∉ args) :
    convertValue v (.unionTy args) = convertUnion v args Option.none := by
  rw [convertValue, isOptionalType_not_none args h]
  · simp [convertResolved]
  · exact fun hh => Ty.noConfusion hh

/-- C8: conversion of a string to a boolean recognizes the case-insensitive
true words and false words and defaults any other non-empty string to true
(the empty string is falsy); a union target that is not an optional tries its
members left to right returning the first successful conversion, and when
both members of a two-member union fail, the second (last) member's error is
raised — concretely, string `abc` against `int | dict` raises the dict error;
a list-typed query target receives every repeated occurrence of its key, a
single occurrence becoming a one-element list. -/
theorem C8_conversion_policy :
    (∀ s : String, convertValue (.str s) .boolTy =
      .ok (.bool
        (if pyLower s ∈ (["true", "1", "yes", "on"] : List String) then true
         else if pyLower s ∈ (["false", "0", "no", "off"] : List String) then
           false
         else s != ""))) ∧
    (∀ (v w : Val) (t : Ty) (ts : List Ty), Ty.noneTy ∉ t :: ts →
      convertValue v t = .ok w →
      convertValue v (.unionTy (t :: ts)) = .ok w) ∧
    (∀ (v : Val) (t1 t2 : Ty) (e1 e2 : String), t1 ≠ Ty.noneTy →
      t2 ≠ Ty.noneTy → convertValue v t1 = .error e1 →
      convertValue v t2 = .error e2 →
      convertValue v (.unionTy [t1, t2]) = .error e2) ∧
    convertValue (.str "abc") (.unionTy [.intTy, .dictTy]) =
      .error "Expected dict value" ∧
    (∀ (qp : List (String × List String)) (pname key : String)
      (values : List String) (dflt : Option Val) (item : Ty),
      lookupAssoc qp key = some values →
      resolveQuery qp pname key dflt (.listTy item) =
        convertOrError (.list (values.map Val.str)) (.listTy item)
          ("Invalid query parameter " ++ key)) ∧
    resolveQuery [("k", ["a", "b"])] "p" "k" Option.none (.listTy .strTy) =
      .ok (.list [.str "a", .str "b"]) ∧
    resolveQuery [("k", ["a"])] "p" "k" Option.none (.listTy .strTy) =
      .ok (.list [.str "a"]) := by
  refine ⟨?_, ?_, ?_, ?_, ?_, ?_, ?_⟩
  · intro s
    simp [convertValue, isOptionalType, isNoneVal, convertResolved,
      convertScalar, coerceBool, pyTruthy]
  · intro v w t ts hnn hok
    rw [convertValue_union_not_none v (t :: ts) hnn,
      convertUnion_cons_not_none v t ts Option.none
        (by simp at hnn; exact Ne.symm hnn.1),
      hok]
  · intro v t1 t2 e1 e2 h1 h2 he1 he2
    rw [convertValue_union_not_none v [t1, t2] (by simp [Ne.symm h1, Ne.symm h2]),
      convertUnion_cons_not_none v t1 [t2] Option.none h1, he1]
    show convertUnion v [t2] (some e1) = Except.error e2
    rw [convertUnion_cons_not_none v t2 [] (some e1) h2, he2]
    show convertUnion v [] (some e2) = Except.error e2
    rw [convertUnion]
  · rw [convertValue_union_not_none (.str "abc") [.intTy, .dictTy] (by simp),
      convertUnion_cons_not_none _ _ _ _ (by simp)]
    simp [convertValue, isOptionalType, isNoneVal, convertResolved,
      convertScalar, pyInt, pyParseInt, parseNatAux, Except.map, convertUnion,
      convertDict]
  · intro qp pname key values dflt item h
    simp [resolveQuery, h, isListType, isOptionalType]
  · simp [resolveQuery, lookupAssoc, isListType, isOptionalType, convertOrError,
      convertValue, isNoneVal, convertResolved, convertList, convertItems,
      convertScalar, pyStr]
  · simp [resolveQuery, lookupAssoc, isListType, isOptionalType, convertOrError,
      convertValue, isNoneVal, convertResolved, convertList, convertItems,
      convertScalar, pyStr]

/-- C9: a value absent from its source with no default and a non-optional
target raises a 422 client error whose message names the parameter (both in
`_default_or_error` and through `resolve_query`); a conversion failure raises
a 422 client error whose message names the parameter and its source; and
every error `resolve_query` produces has status 422 — a client error, never a
server error. -/
theorem C9_client_errors :
    (∀ (name : String) (t : Ty), (isOptionalType t).1 = false →
      defaultOrError name Option.none t =
        .error ⟨422, "Missing required value for " ++ name⟩) ∧
    (∀ (v : Val) (t : Ty) (msg e : String), convertValue v t = .error e →
      convertOrError v t msg = .error ⟨422, msg⟩) ∧
    (∀ (qp : List (String × List String)) (pname key : String) (t : Ty),
      lookupAssoc qp key = Option.none → (isOptionalType t).1 = false →
      resolveQuery qp pname key Option.none t =
        .error ⟨422, "Missing required value for " ++ pname⟩) ∧
    (∀ (qp : List (String × List String)) (pname key : String)
      (values : List String) (dflt : Option Val) (t : Ty) (e : String),
      lookupAssoc qp key = some values →
      convertValue
        (if isListType t then Val.list (values.map Val.str)
         else Val.str (values.headD "")) t = .error e →
      resolveQuery qp pname key dflt t =
        .error ⟨422, "Invalid query parameter " ++ key⟩) ∧
    (∀ (qp : List (String × List String)) (pname key : String)
      (dflt : Option Val) (t : Ty) (err : HTTPError),
      resolveQuery qp pname key dflt t = .error err → err.status = 422) := by
  refine ⟨?_, ?_, ?_, ?_, ?_⟩
  · intro name t h
    simp [defaultOrError, h]
  · intro v t msg e h
    simp [convertOrError, h]
  · intro qp pname key t h hopt
    simp [resolveQuery, h, defaultOrError, hopt]
  · intro qp pname key values dflt t e h hconv
    simp only [resolveQuery, h, convertOrError]
    rw [hconv]
  · intro qp pname key dflt t err h
    cases hq : lookupAssoc qp key with
    | none =>
      simp only [resolveQuery, hq] at h
      cases dflt with
      | some d => simp [defaultOrError] at h
      | none =>
        by_cases hopt : (isOptionalType t).1
        · simp [defaultOrError, hopt] at h
        · simp [defaultOrError, hopt] at h
          rw [← h]
    | some values =>
      simp only [resolveQuery, hq, convertOrError] at h
      cases hc : convertValue
          (if isListType t then Val.list (values.map Val.str)
           else Val.str (values.headD "")) t with
      | ok w => rw [hc] at h; simp at h
      | error e =>
        rw [hc] at h
        simp at h
        rw [← h]

/-- A provider registration as `_compile_type_dependency` consumes it: the
`use_cache` flag of a `ProviderSpec` (di.py lines 12-16); the factory function
and its resolution environment are opaque to the compile-time ladder. -/
structure ProviderSpec where
  useCache : Bool

/-- The provider registry modelled by its lookup function (the dependency key
is a declared type; `ProviderRegistry.get`, di.py lines 46-47). -/
def Providers : Type := Ty → Option ProviderSpec

/-- The resolver kinds `_compile_type_dependency` can produce: return the
parameter's default, return `None`, or resolve through a provider under a
cache key with a caching policy. -/
inductive ResolverK where
  | retDefault (d : Val)
  | retNone
  | dependency (cacheKey : Ty) (useCache : Bool)

/-- The two compile-time exception classes of handler compilation:
`TypeError` (fatal, non-deferrable) and its subclass `MissingProviderError`
(handler.py lines 29-30), which `add_route` may defer. -/
inductive CompileErr where
  | typeErr (message : String)
  | missingProvider (message : String)

/-- The dependency lookup key of `_compile_type_dependency` (handler.py lines
275-276): the inner type when the annotation is optional, else the annotation
itself. -/
def dependencyKey (targetType : Ty) : Ty :=
  let opt := isOptionalType targetType
  if opt.1 then opt.2 else targetType

/-- Embeds `_is_request_data_type` (handler.py lines 353-359): the primitive,
list, dict and union annotations that look like request payloads. -/
def isRequestDataType : Ty → Bool
  | .anyTy | .strTy | .intTy | .boolTy | .bytesTy | .dictTy => true
  | .listTy _ => true
  | .unionTy _ => true
  | _ => false

/-- Embeds `_compile_type_dependency` (handler.py lines 264-303): look up a
provider under the optional-unwrapped key; on a hit compile a dependency
resolver with that key and the provider's caching flag; on a miss use the
parameter default if present, else produce `None` for an optional type, else
raise an immediate `TypeError` for a request-payload-looking type, else raise
the deferrable `MissingProviderError`. -/
def compileTypeDependency (name : String) (targetType : Ty) (dflt : Option Val)
    (providers : Providers) : Except CompileErr ResolverK :=
  let key := dependencyKey targetType
  match providers key with
  | some spec => .ok (.dependency key spec.useCache)
  | Option.none =>
    match dflt with
    | some d => .ok (.retDefault d)
    | Option.none =>
      if (isOptionalType targetType).1 then .ok .retNone
      else if isRequestDataType key then
        .error (.typeErr ("Missing extractor for " ++ name))
      else
        .error (.missingProvider ("Missing extractor or provider for " ++ name))

/-- One handler parameter carrying no extractor and no explicit-dependency
metadata (the implicit type-based dependency case of `_compile_param`): its
name, declared type, and optional default value. -/
structure ParamSig where
  name : String
  type : Ty
  dflt : Option Val

/-- The parameter loop of `compile_handler` (handler.py lines 48-72) for a
handler whose parameters are all implicit type-based dependencies: compile
each parameter in declaration order into a named resolver, aborting at the
first compile error. -/
def compileHandler (providers : Providers) :
    List ParamSig → Except CompileErr (List (String × ResolverK))
  | [] => .ok []
  | p :: rest =>
    match compileTypeDependency p.name p.type p.dflt providers with
    | .error e => .error e
    | .ok r =>
      match compileHandler providers rest with
      | .error e => .error e
      | .ok rs => .ok ((p.name, r) :: rs)

/-- The deferred-compilation state of `Router` relevant to claim C7: the
handler signatures of the registered route specs and the `_compiled_once`
flag (router.py lines 54-59); the registry lives in the `Providers` lookup
passed to each operation. -/
structure RouterState where
  routes : List (List ParamSig)
  compiledOnce : Bool

/-- Embeds the compilation handling of `Router.add_route` (router.py lines
125-131): the handler is compiled at registration; a `MissingProviderError`
is swallowed — compilation deferred, the route still registered — unless
`compile()` has already run; any other compile error propagates. -/
def addRouteCompile (st : RouterState) (providers : Providers)
    (handler : List ParamSig) : Except CompileErr RouterState :=
  match compileHandler providers handler with
  | .ok _ => .ok { st with routes := st.routes ++ [handler] }
  | .error (.missingProvider m) =>
    if st.compiledOnce then .error (.missingProvider m)
    else .ok { st with routes := st.routes ++ [handler] }
  | .error e => .error e

/-- The route loop of `Router.compile` (router.py lines 165-174): recompile
every registered route's handler, propagating the first error. -/
def compileAll (providers : Providers) :
    List (List ParamSig) → Except CompileErr Unit
  | [] => .ok ()
  | handler :: rest =>
    match compileHandler providers handler with
    | .error e => .error e
    | .ok _ => compileAll providers rest

/-- Embeds `Router.compile` (router.py lines 163-174): mark the router
finalized (`_compiled_once`) and recompile every route, a still-unresolved
missing-provider error now raising fatally instead of being deferred. -/
def compileRouter (st : RouterState) (providers : Providers) :
    Except CompileErr RouterState :=
  match compileAll providers st.routes with
  | .ok _ => .ok { st with compiledOnce := true }
  | .error e => .error e

/-- C7: for a parameter with no extractor or dependency metadata whose
declared type has no registered provider — the lookup key being the
optional-unwrapped type — the compiled resolver returns the default when one
exists; otherwise an optional type compiles to the `None` resolver; otherwise
a request-payload-looking type raises an immediate (fatal) configuration
`TypeError`; any other type raises the deferred `MissingProviderError`; route
registration before finalization still succeeds despite a missing provider,
registering the route spec; and `compile()` re-raises the missing-provider
error fatally when the provider is still unregistered at finalization. -/
theorem C7_missing_provider_ladder :
    (∀ (name : String) (t : Ty) (d : Val) (providers : Providers),
      providers (dependencyKey t) = Option.none →
      compileTypeDependency name t (some d) providers = .ok (.retDefault d)) ∧
    (∀ (name : String) (t : Ty) (providers : Providers),
      providers (dependencyKey t) = Option.none →
      (isOptionalType t).1 = true →
      compileTypeDependency name t Option.none providers = .ok .retNone) ∧
    (∀ (name : String) (t : Ty) (providers : Providers),
      providers (dependencyKey t) = Option.none →
      (isOptionalType t).1 = false → isRequestDataType (dependencyKey t) = true →
      compileTypeDependency name t Option.none providers =
        .error (.typeErr ("Missing extractor for " ++ name))) ∧
    (∀ (name : String) (t : Ty) (providers : Providers),
      providers (dependencyKey t) = Option.none →
      (isOptionalType t).1 = false → isRequestDataType (dependencyKey t) = false →
      compileTypeDependency name t Option.none providers =
        .error (.missingProvider ("Missing extractor or provider for " ++ name))) ∧
    (∀ (st : RouterState) (providers : Providers) (handler : List ParamSig)
      (m : String),
      compileHandler providers handler = .error (.missingProvider m) →
      st.compiledOnce = false →
      addRouteCompile st providers handler =
        .ok { st with routes := st.routes ++ [handler] }) ∧
    (∀ (providers : Providers) (handler : List ParamSig) (m : String)
      (b : Bool),
      compileHandler providers handler = .error (.missingProvider m) →
      compileRouter ⟨[handler], b⟩ providers =
        .error (.missingProvider m)) := by
  refine ⟨?_, ?_, ?_, ?_, ?_, ?_⟩
  · intro name t d providers h
    simp [compileTypeDependency, h]
  · intro name t providers h hopt
    simp [compileTypeDependency, h, hopt]
  · intro name t providers h hopt hreq
    simp [compileTypeDependency, h, hopt, hreq]
  · intro name t providers h hopt hreq
    simp [compileTypeDependency, h, hopt, hreq]
  · intro st providers handler m h hc
    simp [addRouteCompile, h, hc]
  · intro providers handler m b h
    simp [compileRouter, compileAll, h]

end Bard
